import Mathlib

/-!
Verification of the daily-reading scraper (src/scraper.py) against its
natural-language specification.  The pipeline is shallowly embedded: Python
dicts holding article fields become the `Article` structure (fields the code
adds or deletes at runtime are `Option`s), external effects (the snapshot
file, the network, the Gemini API) become explicit parameters, and `main`'s
candidate-routing control flow becomes the pure function `runMain`.
-/

namespace Scraper

/-- Python's `pat in s` substring operator, over the character lists of the
strings: `pat` occurs as a contiguous run somewhere in `s`. -/
def subListOccurs (pat : List Char) : List Char → Bool
  | [] => pat.isEmpty
  | c :: t => pat.isPrefixOf (c :: t) || subListOccurs pat t

/-- Python `pat in s` on strings. -/
def strContains (s pat : String) : Bool := subListOccurs pat.data s.data

/-- Python `s.lower()` (per-character lowercasing). -/
def strToLower (s : String) : String := String.mk (s.data.map Char.toLower)

/-- Python slice `s[:n]`. -/
def strTake (s : String) (n : Nat) : String := String.mk (s.data.take n)

/-- One pass of Python `s.replace(pat, repl)` over character lists, with
explicit fuel (one unit per character consumed) so the function is
structurally recursive; fuel `s.length` suffices for a non-empty pattern. -/
def replaceAllAux (pat repl : List Char) : Nat → List Char → List Char
  | 0, s => s
  | _, [] => []
  | fuel + 1, c :: t =>
    if !pat.isEmpty && pat.isPrefixOf (c :: t) then
      repl ++ replaceAllAux pat repl fuel ((c :: t).drop pat.length)
    else c :: replaceAllAux pat repl fuel t

/-- Python `s.replace(pat, repl)`. -/
def strReplace (s pat repl : String) : String :=
  String.mk (replaceAllAux pat.data repl.data s.data.length s.data)

/-- Lexicographic `<` on strings by character code, as Python compares
strings (used for the date sort key). -/
def charListLt : List Char → List Char → Bool
  | [], [] => false
  | [], _ :: _ => true
  | _ :: _, [] => false
  | a :: as, b :: bs =>
    if a.toNat < b.toNat then true
    else if b.toNat < a.toNat then false
    else charListLt as bs

/-- Python truthiness of a string: non-empty. -/
def truthy (s : String) : Bool := !(s == "")

/-- Python truthiness of `d.get(key)`: the key is present with a non-empty
string value. -/
def optTruthy : Option String → Bool
  | none => false
  | some s => truthy s

/-- The sentinel failure marker the code embeds in `summary_kr`
(`"[요약 실패]"` in `scraper.py`). -/
def failMarker : String := "[요약 실패]"

/-- The test `"[요약 실패]" in s` from `main` (scraper.py lines 538, 560). -/
def containsMarker (s : String) : Bool := strContains s failMarker

/-- An article dict as it flows through `scraper.py`.  Keys that the code
adds (`title`, `summary_kr`) or deletes (`description_en`) at runtime are
modelled as `Option`; keys always present are plain `String`. -/
structure Article where
  title_en : String
  description_en : Option String
  url : String
  source : String
  category : String
  date : String
  image_url : Option String
  title : Option String
  summary_kr : Option String
  deriving Repr, DecidableEq

/-- `split_into_n_chunks` (scraper.py lines 399-408): balanced split of a
list into `n` chunks; fewer than `n` elements degrade to singletons.
A Python slice `lst[a:b]` (with `a ≤ b`) is `(lst.drop a).take (b - a)`. -/
def split_into_n_chunks (lst : List α) (n : Nat) : List (List α) :=
  if lst.isEmpty then []
  else if lst.length < n then lst.map (fun x => [x])
  else
    let k := lst.length / n
    let m := lst.length % n
    (List.range n).map fun i =>
      (lst.drop (i * k + min i m)).take ((i + 1) * k + min (i + 1) m - (i * k + min i m))

/-- `TARGET_BLOCKS = 10` (scraper.py line 523). -/
def TARGET_BLOCKS : Nat := 10

/-- A `rel` entry of a feedparser `links` list: `lk.get('type')` and
`lk.get('href')`. -/
structure LinkRel where
  linkType : Option String
  href : Option String
  deriving Repr, DecidableEq

/-- A feedparser entry, restricted to the keys `scrape_feed` and
`scrape_youtube_videos` read.  `published` is the source-claimed publication
date carried by the feed; the code never reads it (the `published_parsed`
logic was deleted, see the `[삭제됨]` comments at lines 304 and 368).
`media_thumbnail` is the `url` of the first thumbnail when the key is
present with a non-empty list. -/
structure FeedEntry where
  link : Option String
  title : Option String
  summary : Option String
  published : Option String
  media_thumbnail : Option String
  links : List LinkRel
  media_description : Option String
  deriving Repr, DecidableEq

/-- Image extraction in `scrape_feed` (lines 307-315): the first thumbnail
url, else the `href` of the first link whose type starts with `image/`. -/
def feedImage (entry : FeedEntry) : Option String :=
  match entry.media_thumbnail with
  | some u => some u
  | none =>
    match entry.links.find? (fun lk => "image/".data.isPrefixOf ((lk.linkType).getD "").data) with
    | some lk => lk.href
    | none => none

/-- `scrape_feed` (lines 285-338), per-entry logic.  The network fetch and
`BeautifulSoup(...).get_text` are external; the HTML-to-text step is the
`clean` parameter.  `date_str` is `datetime.now(PALO_ALTO_TZ)` formatted —
the `[핵심]` comment at line 293: this, not the entry's `published`, becomes
the article's date. -/
def scrape_feed (clean : String → String) (entries : List FeedEntry)
    (source_name category_name date_str : String) : List Article :=
  entries.filterMap fun entry =>
    if optTruthy entry.link && optTruthy entry.title then
      some { title_en := (entry.title).getD ""
           , description_en := some (clean ((entry.summary).getD ""))
           , url := (entry.link).getD ""
           , source := source_name
           , category := category_name
           , date := date_str
           , image_url := feedImage entry
           , title := none
           , summary_kr := none }
    else none

/-- Image extraction in `scrape_youtube_videos` (lines 371-373). -/
def ytImage (entry : FeedEntry) : Option String :=
  match entry.media_thumbnail with
  | some u => some (strReplace u "default.jpg" "hqdefault.jpg")
  | none => none

/-- `scrape_youtube_videos` (lines 343-396), per-entry logic; like
`scrape_feed`, the date is unconditionally `date_str` (today, line 353). -/
def scrape_youtube_videos (clean : String → String) (entries : List FeedEntry)
    (source_name category_name date_str : String) : List Article :=
  entries.filterMap fun entry =>
    if optTruthy entry.title && optTruthy entry.link then
      some { title_en := (entry.title).getD ""
           , description_en :=
               some (clean ((entry.media_description).getD
                 ((entry.summary).getD ((entry.title).getD ""))))
           , url := (entry.link).getD ""
           , source := source_name
           , category := category_name
           , date := date_str
           , image_url := ytImage entry
           , title := none
           , summary_kr := none }
    else none

/-- One element of the parsed Gemini batch response (the JSON schema at
lines 134-144): a correlation id and the two translated fields. -/
structure GeminiResult where
  id : Nat
  title_kr : String
  summary_kr : String
  deriving Repr, DecidableEq

/-- Outcome of the external batch call in `get_gemini_batch_summary`:
either every one of the 5 attempts raised (so the code falls through to
line 177 and returns the originals), or some attempt returned a response
that parsed into a result list. -/
inductive BatchOutcome where
  | failure
  | parsed (results : List GeminiResult)

/-- `result_map = ⟨item['id']: item for item in results⟩` (line 153): a dict
comprehension where a later item with the same id overwrites an earlier
one, so lookup returns the last matching item. -/
def resultMapLookup (results : List GeminiResult) (idx : Nat) : Option GeminiResult :=
  results.reverse.find? (fun r => r.id == idx)

/-- The missing-id branch (lines 162-166): the article is mutated — `title`
set to the English title, `summary_kr` set to the sentinel message — and
appended to the processed batch.  `description_en` is NOT deleted here. -/
def markMissing (art : Article) : Article :=
  { art with
      title := some art.title_en
      summary_kr := some (failMarker ++ " 배치 처리 중 누락") }

/-- The matched-id branch (lines 156-160): attach the translated title and
summary and delete `description_en`. -/
def applyResult (r : GeminiResult) (art : Article) : Article :=
  { art with
      title := some r.title_kr
      summary_kr := some r.summary_kr
      description_en := none }

/-- `get_gemini_batch_summary` (lines 82-177).  A missing API key returns
`[]` (lines 86-88); a parsed response maps every submitted article by its
enumeration index through `result_map`; total failure of all attempts
returns the original batch unchanged (line 177). -/
def get_gemini_batch_summary (hasApiKey : Bool) (outcome : BatchOutcome)
    (articles_batch : List Article) : List Article :=
  if !hasApiKey then []
  else
    match outcome with
    | .failure => articles_batch
    | .parsed results =>
      articles_batch.enum.map fun p =>
        match resultMapLookup results p.1 with
        | some r => applyResult r p.2
        | none => markMissing p.2

/-- Outcome of the external per-video call in `get_gemini_summary_youtube`:
a JSON parse error (line 263), all attempts raising (line 279), or a parsed
dict whose `title_kr` / `summary_kr` keys may each be absent. -/
inductive YtOutcome where
  | jsonError
  | finalError (msg : String)
  | ok (title_kr : Option String) (summary_kr : Option String)

/-- `get_gemini_summary_youtube` (lines 180-279): returns the
`(title_kr, summary_kr)` pair; every failure path returns the English title
together with a summary bearing the sentinel marker. -/
def get_gemini_summary_youtube (hasApiKey : Bool) (outcome : YtOutcome)
    (article_data : Article) : String × String :=
  let title_en := article_data.title_en
  let description_en := (article_data.description_en).getD ""
  if !hasApiKey then
    (title_en, failMarker ++ " API 키 없음. (원본: " ++ strTake description_en 100 ++ "...)")
  else
    match outcome with
    | .jsonError => (title_en, failMarker ++ " AI 응답 오류 (JSON 파싱 실패)")
    | .finalError msg => (title_en, failMarker ++ " " ++ msg)
    | .ok t s => (t.getD title_en, s.getD "요약 내용 없음")

/-- The youtube test at line 488:
`'youtube' in item['url'].lower() or 'youtu.be' in item['url'].lower()`. -/
def isYoutubeUrl (url : String) : Bool :=
  strContains (strToLower url) "youtube" || strContains (strToLower url) "youtu.be"

/-- `list(⟨v['url']: v for v in l⟩.values())` (lines 511, 517): a Python
dict comprehension keyed by url keeps the insertion order of the first
occurrence of each url but the value of its last occurrence. -/
def dictKeys (l : List Article) : List String :=
  l.foldl (fun ks a => if ks.contains a.url then ks else ks ++ [a.url]) []

/-- The `.values()` list of the url-keyed dict comprehension. -/
def dictValues (l : List Article) : List Article :=
  (dictKeys l).filterMap (fun u => l.reverse.find? (fun a => a.url == u))

/-- The failure test `main` applies to a processed article (lines 538, 560):
the sentinel marker occurs in `art.get('summary_kr', '')`. -/
def isFailed (art : Article) : Bool := containsMarker ((art.summary_kr).getD "")

/-- The per-article routing of `main` (lines 537-541): an article whose
`summary_kr` (defaulting to `''` when absent) carries the sentinel marker is
appended to `new_failed_queue`, otherwise to `new_articles`. -/
def routeArticle (acc : List Article × List Article) (art : Article) :
    List Article × List Article :=
  if isFailed art then (acc.1, acc.2 ++ [art])
  else (acc.1 ++ [art], acc.2)

/-- The inner `for art in processed` loop of one batch (lines 537-541). -/
def routeBatch (acc : List Article × List Article) (processed : List Article) :
    List Article × List Article :=
  processed.foldl routeArticle acc

/-- One iteration of the text-chunk loop of `main` (lines 531-541): the
chunk at enumeration index `p.1` is sent through `get_gemini_batch_summary`
and its output routed into the `(new_articles, new_failed_queue)`
accumulator. -/
def chunkStep (hasApiKey : Bool) (outcome : Nat → BatchOutcome)
    (acc : List Article × List Article) (p : Nat × List Article) :
    List Article × List Article :=
  routeBatch acc (get_gemini_batch_summary hasApiKey (outcome p.1) p.2)

/-- The text-chunk loop of `main` (lines 531-546), via `chunkStep`. -/
def processTextChunks (hasApiKey : Bool) (outcome : Nat → BatchOutcome)
    (chunks : List (List Article)) : List Article × List Article :=
  chunks.enum.foldl (chunkStep hasApiKey outcome) ([], [])

/-- The success mutation of the youtube loop (lines 563-565): attach the
translated title and summary and delete `description_en`. -/
def enrichYt (art : Article) (t s : String) : Article :=
  { art with title := some t, summary_kr := some s, description_en := none }

/-- One iteration of the youtube loop of `main` (lines 554-566): the video
at enumeration index `p.1` is summarised; a marker-bearing summary sends
the original article to the failed queue, otherwise the enriched article
joins `new_articles`. -/
def ytStep (hasApiKey : Bool) (outcome : Nat → YtOutcome)
    (acc : List Article × List Article) (p : Nat × Article) :
    List Article × List Article :=
  if containsMarker (get_gemini_summary_youtube hasApiKey (outcome p.1) p.2).2 then
    (acc.1, acc.2 ++ [p.2])
  else
    (acc.1 ++ [enrichYt p.2 (get_gemini_summary_youtube hasApiKey (outcome p.1) p.2).1
        (get_gemini_summary_youtube hasApiKey (outcome p.1) p.2).2], acc.2)

/-- The youtube loop of `main` (lines 552-566), continuing to accumulate
into the same `(new_articles, new_failed_queue)` pair. -/
def processYoutube (hasApiKey : Bool) (outcome : Nat → YtOutcome)
    (cands : List Article) (acc : List Article × List Article) :
    List Article × List Article :=
  cands.enum.foldl (ytStep hasApiKey outcome) acc

/-- Descending date order used as the sort comparison: `a` may precede `b`
exactly when `a.date` is not lexicographically below `b.date` (so equal
dates preserve the original order — Python's sort is stable). -/
def dateGe (a b : Article) : Bool := !(charListLt a.date.data b.date.data)

/-- Stable insertion of one article into a descending-by-date list. -/
def insertSorted (a : Article) : List Article → List Article
  | [] => [a]
  | b :: bs => if dateGe a b then a :: b :: bs else b :: insertSorted a bs

/-- `final_list.sort(key=lambda x: x.get('date',''), reverse=True)` (line
572): Python's stable descending sort, modelled as a stable insertion sort
(extensionally equal to any stable sort under the same order). -/
def sortByDateDesc (l : List Article) : List Article := l.foldr insertSorted []

/-- The external inputs of one run of `main`: the API key's presence, the
loaded snapshot (`articles` and `failed_queue`; both `[]` when the file is
missing or corrupt, lines 438-443), the concatenated source-reader outputs
(`scrape_feed` over the source list, `scrape_youtube_videos` over the
channels), the per-chunk and per-video outcomes of the external Gemini
calls, and the formatted current time. -/
structure RunEnv where
  hasApiKey : Bool
  loadedArticles : List Article
  loadedFailed : List Article
  freshText : List Article
  freshYt : List Article
  batchOutcome : Nat → BatchOutcome
  ytOutcome : Nat → YtOutcome
  last_updated : String

/-- The output snapshot structure written at lines 574-578. -/
structure Snapshot where
  last_updated : String
  failed_queue : List Article
  articles : List Article
  deriving Repr, DecidableEq

/-- `old_articles` (lines 428-433): loaded records with a truthy url;
`seen_urls` is their url set. -/
def oldArticles (env : RunEnv) : List Article :=
  env.loadedArticles.filter (fun a => truthy a.url)

/-- `seen_urls` (line 433), kept as a list of the urls of `old_articles`. -/
def seenUrls (env : RunEnv) : List String :=
  (oldArticles env).map (fun a => a.url)

/-- `youtube_candidates` (lines 483-499): retry items with a youtube url
and not already seen, followed by the freshly scraped channel videos. -/
def youtubeCandidates (env : RunEnv) : List Article :=
  env.loadedFailed.filter
    (fun i => !((seenUrls env).contains i.url) && isYoutubeUrl i.url)
    ++ env.freshYt

/-- The non-youtube retry items collected at lines 483-491 into
`text_candidates` — the list that line 502 then throws away. -/
def textRetryCandidates (env : RunEnv) : List Article :=
  env.loadedFailed.filter
    (fun i => !((seenUrls env).contains i.url) && !(isYoutubeUrl i.url))

/-- `text_candidates` as it stands after line 508.  Line 502 re-initialises
the variable to `[]`, so only the fresh, unseen feed items remain; the
retry items of `textRetryCandidates` are gone. -/
def textCandidates (env : RunEnv) : List Article :=
  env.freshText.filter (fun i => !((seenUrls env).contains i.url))

/-- `unique_text_candidates` (line 511). -/
def uniqueTextCandidates (env : RunEnv) : List Article :=
  dictValues (textCandidates env)

/-- `filtered_candidates` (line 514): youtube candidates minus seen urls. -/
def filteredCandidates (env : RunEnv) : List Article :=
  (youtubeCandidates env).filter (fun v => !((seenUrls env).contains v.url))

/-- `unique_youtube_candidates` (line 517). -/
def uniqueYoutubeCandidates (env : RunEnv) : List Article :=
  dictValues (filteredCandidates env)

/-- The `(new_articles, new_failed_queue)` pair after the text block
(lines 520-548): chunked processing when there is at least one candidate. -/
def textResult (env : RunEnv) : List Article × List Article :=
  if !(uniqueTextCandidates env).isEmpty then
    processTextChunks env.hasApiKey env.batchOutcome
      (split_into_n_chunks (uniqueTextCandidates env) TARGET_BLOCKS)
  else ([], [])

/-- The `(new_articles, new_failed_queue)` pair after the youtube block
(lines 552-566). -/
def finalResult (env : RunEnv) : List Article × List Article :=
  if !(uniqueYoutubeCandidates env).isEmpty then
    processYoutube env.hasApiKey env.ytOutcome (uniqueYoutubeCandidates env) (textResult env)
  else textResult env

/-- `main` (lines 415-578), up to and including the assembly of
`output_data`.  Follows the source step by step: load and seen-set
(424-436), retry reinjection (483-491) — whose text half is then DISCARDED
because line 502 re-initialises `text_candidates` — fresh scraping and
seen-filtering (498-508), url dedup (511-517), chunked text processing
(527-546), youtube processing (552-566), merge and sort (571-572). -/
def runMain (env : RunEnv) : Snapshot :=
  { last_updated := env.last_updated
  , failed_queue := (finalResult env).2
  , articles := sortByDateDesc (oldArticles env ++ (finalResult env).1) }

/-- The snapshot-save step (lines 580-585): `json.dump` runs inside `try`,
and `except Exception as e` catches ANY write failure, turning it into a
log line.  The result is the log message produced and the exception
escaping the block — which is `none` on both arms. -/
def saveSnapshotStep (write : Except String Unit) : String × Option String :=
  match write with
  | .ok _ => ("데이터 저장 완료 (articles.json)", none)
  | .error e => ("파일 저장 실패: " ++ e, none)

/-- The log-file save step (lines 609-614), identical try/except shape. -/
def saveLogsStep (write : Except String Unit) : String × Option String :=
  match write with
  | .ok _ => ("로그 저장 완료", none)
  | .error e => ("로그 저장 실패: " ++ e, none)

/-- The process exit code after the save phase: Python exits 0 unless an
exception escapes `main`; an exception would escape only if one of the save
steps re-raised it. -/
def processExitCode (snapshotWrite logsWrite : Except String Unit) : Nat :=
  match (saveSnapshotStep snapshotWrite).2 with
  | some _ => 1
  | none =>
    match (saveLogsStep logsWrite).2 with
    | some _ => 1
    | none => 0

end Scraper

namespace Scraper

/-! ### Concrete fixtures used by the counterexamples and witnesses -/

/-- A fresh text candidate as a source reader emits it. -/
def sampleCandidate : Article :=
  { title_en := "Sample title", description_en := some "Sample description"
  , url := "https://example.com/a1", source := "Nature", category := "News"
  , date := "2026-10-12", image_url := none, title := none, summary_kr := none }

/-- A non-youtube item sitting in the previous snapshot's failed queue. -/
def sampleRetryText : Article :=
  { title_en := "Retry title", description_en := some "Retry description"
  , url := "https://example.com/retry1", source := "Science", category := "News"
  , date := "2026-10-11", image_url := none, title := none, summary_kr := none }

/-- A historical record dated 8 days before the run date 2026-10-12. -/
def oldRecord : Article :=
  { title_en := "Old title", description_en := none
  , url := "https://example.com/old", source := "Nature", category := "News"
  , date := "2026-10-04", image_url := none, title := some "옛 기사"
  , summary_kr := some "과거 요약" }

/-- A feed entry carrying a present, parseable source publication date. -/
def datedEntry : FeedEntry :=
  { link := some "https://example.com/story", title := some "A story"
  , summary := some "Body", published := some "2020-01-01"
  , media_thumbnail := none, links := [], media_description := none }

/-- The article `scrape_feed` emits for `datedEntry` on 2026-10-12. -/
def datedEmitted : Article :=
  { title_en := "A story", description_en := some "Body"
  , url := "https://example.com/story", source := "Nature", category := "News"
  , date := "2026-10-12", image_url := none, title := none, summary_kr := none }

/-- A run with `GEMINI_API_KEY` unset and one fresh, unseen candidate. -/
def envNoApiKey : RunEnv :=
  { hasApiKey := false, loadedArticles := [], loadedFailed := []
  , freshText := [sampleCandidate], freshYt := []
  , batchOutcome := fun _ => BatchOutcome.failure
  , ytOutcome := fun _ => YtOutcome.jsonError
  , last_updated := "2026-10-12 08:00:00" }

/-- A run whose previous snapshot has one unseen non-youtube retry item and
no fresh candidates; the API key is present and every call would succeed. -/
def envRetryWiped : RunEnv :=
  { hasApiKey := true, loadedArticles := [], loadedFailed := [sampleRetryText]
  , freshText := [], freshYt := []
  , batchOutcome := fun _ => BatchOutcome.parsed []
  , ytOutcome := fun _ => YtOutcome.ok none none
  , last_updated := "2026-10-12 08:00:00" }

/-- A run on 2026-10-12 loading one 8-day-old record and no candidates. -/
def envOldRecord : RunEnv :=
  { hasApiKey := true, loadedArticles := [oldRecord], loadedFailed := []
  , freshText := [], freshYt := []
  , batchOutcome := fun _ => BatchOutcome.parsed []
  , ytOutcome := fun _ => YtOutcome.ok none none
  , last_updated := "2026-10-12 08:00:00" }

/-- A batch of five submitted articles. -/
def sampleBatch : List Article :=
  [ { sampleCandidate with url := "https://example.com/b0", title_en := "B0" }
  , { sampleCandidate with url := "https://example.com/b1", title_en := "B1" }
  , { sampleCandidate with url := "https://example.com/b2", title_en := "B2" }
  , { sampleCandidate with url := "https://example.com/b3", title_en := "B3" }
  , { sampleCandidate with url := "https://example.com/b4", title_en := "B4" } ]

/-- A parsed response carrying results for correlation ids 0, 1, 2 only. -/
def sampleResults : List GeminiResult :=
  [⟨0, "제목0", "요약0"⟩, ⟨1, "제목1", "요약1"⟩, ⟨2, "제목2", "요약2"⟩]

/-! ### Helper lemmas about routing, sorting and the scrapers -/

theorem routeBatch_fst_mem (l : List Article) :
    ∀ (acc : List Article × List Article) (x : Article),
      x ∈ (routeBatch acc l).1 → x ∈ acc.1 ∨ isFailed x = false := by
  induction l with
  | nil => intro acc x hx; exact Or.inl hx
  | cons y t ih =>
    intro acc x hx
    rcases ih (routeArticle acc y) x hx with h | h
    · unfold routeArticle at h
      by_cases hy : isFailed y = true
      · simp [hy] at h; exact Or.inl h
      · simp [hy] at h
        rcases h with h | h
        · exact Or.inl h
        · subst h; exact Or.inr (by simpa using hy)
    · exact Or.inr h

theorem routeBatch_snd_acc (l : List Article) :
    ∀ (acc : List Article × List Article) (x : Article),
      x ∈ acc.2 → x ∈ (routeBatch acc l).2 := by
  induction l with
  | nil => intro acc x hx; exact hx
  | cons y t ih =>
    intro acc x hx
    show x ∈ (routeBatch (routeArticle acc y) t).2
    apply ih
    unfold routeArticle
    by_cases hy : isFailed y = true
    · simp [hy]; exact Or.inl hx
    · simp [hy]; exact hx

theorem routeBatch_snd_mem (l : List Article) :
    ∀ (acc : List Article × List Article) (y : Article),
      y ∈ l → isFailed y = true → y ∈ (routeBatch acc l).2 := by
  induction l with
  | nil => intro _ _ h; cases h
  | cons z t ih =>
    intro acc y hy hfail
    rcases List.mem_cons.mp hy with h | h
    · subst h
      show y ∈ (routeBatch (routeArticle acc y) t).2
      apply routeBatch_snd_acc
      unfold routeArticle
      simp [hfail]
    · exact ih (routeArticle acc z) y h hfail

theorem foldl_chunkStep_fst_mem (hk : Bool) (o : Nat → BatchOutcome)
    (el : List (Nat × List Article)) :
    ∀ (acc : List Article × List Article) (x : Article),
      x ∈ (el.foldl (chunkStep hk o) acc).1 → x ∈ acc.1 ∨ isFailed x = false := by
  induction el with
  | nil => intro acc x hx; exact Or.inl hx
  | cons p t ih =>
    intro acc x hx
    rcases ih (chunkStep hk o acc p) x hx with h | h
    · exact routeBatch_fst_mem _ _ _ h
    · exact Or.inr h

theorem processTextChunks_fst_mem (hk : Bool) (o : Nat → BatchOutcome)
    (chunks : List (List Article)) (x : Article)
    (hx : x ∈ (processTextChunks hk o chunks).1) : isFailed x = false := by
  rcases foldl_chunkStep_fst_mem hk o chunks.enum ([], []) x hx with h | h
  · cases h
  · exact h

theorem isFailed_enrichYt (art : Article) (t s : String)
    (hs : containsMarker s = false) : isFailed (enrichYt art t s) = false := by
  simp [isFailed, enrichYt, hs]

theorem foldl_ytStep_fst_mem (hk : Bool) (o : Nat → YtOutcome)
    (el : List (Nat × Article)) :
    ∀ (acc : List Article × List Article) (x : Article),
      x ∈ (el.foldl (ytStep hk o) acc).1 → x ∈ acc.1 ∨ isFailed x = false := by
  induction el with
  | nil => intro acc x hx; exact Or.inl hx
  | cons p t ih =>
    intro acc x hx
    rcases ih (ytStep hk o acc p) x hx with h | h
    · unfold ytStep at h
      by_cases hc : containsMarker (get_gemini_summary_youtube hk (o p.1) p.2).2 = true
      · simp [hc] at h; exact Or.inl h
      · simp [hc] at h
        rcases h with h | h
        · exact Or.inl h
        · subst h
          exact Or.inr (isFailed_enrichYt _ _ _ (by simpa using hc))
    · exact Or.inr h

theorem processYoutube_fst_mem (hk : Bool) (o : Nat → YtOutcome)
    (cands : List Article) (acc : List Article × List Article) (x : Article)
    (hx : x ∈ (processYoutube hk o cands acc).1) :
    x ∈ acc.1 ∨ isFailed x = false :=
  foldl_ytStep_fst_mem hk o cands.enum acc x hx

theorem insertSorted_perm (a : Article) (l : List Article) :
    (insertSorted a l).Perm (a :: l) := by
  induction l with
  | nil => exact List.Perm.refl _
  | cons b bs ih =>
    unfold insertSorted
    by_cases h : dateGe a b = true
    · simp [h]
    · simp [h]
      exact (List.Perm.cons b ih).trans (List.Perm.swap a b bs)

theorem sortByDateDesc_perm (l : List Article) : (sortByDateDesc l).Perm l := by
  induction l with
  | nil => exact List.Perm.refl _
  | cons a t ih =>
    show (insertSorted a (sortByDateDesc t)).Perm (a :: t)
    exact (insertSorted_perm a (sortByDateDesc t)).trans (List.Perm.cons a ih)

theorem mem_sortByDateDesc {x : Article} {l : List Article} :
    x ∈ sortByDateDesc l ↔ x ∈ l :=
  (sortByDateDesc_perm l).mem_iff

theorem finalResult_fst_not_failed (env : RunEnv) (x : Article)
    (hx : x ∈ (finalResult env).1) : isFailed x = false := by
  have htext : ∀ y, y ∈ (textResult env).1 → isFailed y = false := by
    intro y hy
    unfold textResult at hy
    by_cases htx : (uniqueTextCandidates env).isEmpty
    · simp [htx] at hy
    · simp [htx] at hy
      exact processTextChunks_fst_mem _ _ _ _ hy
  unfold finalResult at hx
  by_cases hyt : (uniqueYoutubeCandidates env).isEmpty
  · simp [hyt] at hx
    exact htext x hx
  · simp [hyt] at hx
    rcases processYoutube_fst_mem _ _ _ _ _ hx with h | h
    · exact htext x h
    · exact h

theorem optTruthy_getD {o : Option String} (h : optTruthy o = true) :
    o.getD "" ≠ "" := by
  cases o with
  | none => simp [optTruthy] at h
  | some s =>
    simp [optTruthy, truthy] at h
    simpa using h

theorem scrape_feed_mem {clean : String → String} {entries : List FeedEntry}
    {src cat today : String} {a : Article}
    (ha : a ∈ scrape_feed clean entries src cat today) :
    a.date = today ∧ a.url ≠ "" ∧ a.title_en ≠ "" := by
  rcases List.mem_filterMap.mp ha with ⟨entry, _, hcond⟩
  simp at hcond
  rcases hcond with ⟨⟨hlink, htitle⟩, hrec⟩
  subst hrec
  exact ⟨rfl, optTruthy_getD hlink, optTruthy_getD htitle⟩

theorem scrape_youtube_videos_mem {clean : String → String}
    {entries : List FeedEntry} {src cat today : String} {a : Article}
    (ha : a ∈ scrape_youtube_videos clean entries src cat today) :
    a.date = today ∧ a.url ≠ "" ∧ a.title_en ≠ "" := by
  rcases List.mem_filterMap.mp ha with ⟨entry, _, hcond⟩
  simp at hcond
  rcases hcond with ⟨⟨htitle, hlink⟩, hrec⟩
  subst hrec
  exact ⟨rfl, optTruthy_getD hlink, optTruthy_getD htitle⟩

theorem isFailed_markMissing (art : Article) : isFailed (markMissing art) = true := by
  simp only [isFailed, markMissing]
  decide

theorem batch_summary_length (results : List GeminiResult) (batch : List Article) :
    (get_gemini_batch_summary true (BatchOutcome.parsed results) batch).length
      = batch.length := by
  simp [get_gemini_batch_summary, List.enum_length]

theorem batch_summary_getElem (results : List GeminiResult) (batch : List Article)
    (i : Nat) :
    (get_gemini_batch_summary true (BatchOutcome.parsed results) batch)[i]?
      = (batch[i]?).map (fun b =>
          match resultMapLookup results i with
          | some r => applyResult r b
          | none => markMissing b) := by
  show (batch.enum.map _)[i]? = _
  rw [List.getElem?_map, List.getElem?_enum]
  cases batch[i]? <;> rfl

theorem flatten_map_singleton {α : Type _} (l : List α) :
    (l.map (fun x => [x])).flatten = l := by
  induction l with
  | nil => rfl
  | cons a t ih => simp [ih]

theorem flatten_boundary_chunks {α : Type _} (lst : List α) (a : Nat → Nat)
    (h0 : a 0 = 0) (hmono : ∀ i, a i ≤ a (i + 1)) :
    ∀ n, ((List.range n).map (fun i => (lst.drop (a i)).take (a (i + 1) - a i))).flatten
      = lst.take (a n) := by
  intro n
  induction n with
  | zero => simp [h0]
  | succ n ih =>
    rw [List.range_succ, List.map_append, List.flatten_append, ih]
    have h1 : a (n + 1) = a n + (a (n + 1) - a n) := by
      have := hmono n; omega
    rw [h1, List.take_add]
    simp

/-! ### The claims -/

/-- C1: the claim that every candidate fed into a run ends in exactly one
of records / retry queue / dropped-as-duplicate fails on the code.  With
`GEMINI_API_KEY` unset, `get_gemini_batch_summary` returns `[]` (scraper.py
lines 86-88), so this run's single fresh candidate — scheduled for
processing and not a duplicate — appears in none of the three categories:
the output records and the next retry queue are both empty. -/
theorem C1_candidate_lost_without_api_key :
    envNoApiKey.freshText = [sampleCandidate] ∧
    (seenUrls envNoApiKey).contains sampleCandidate.url = false ∧
    uniqueTextCandidates envNoApiKey = [sampleCandidate] ∧
    (runMain envNoApiKey).articles = [] ∧
    (runMain envNoApiKey).failed_queue = [] := by
  decide

/-- C2: the claim that unseen retry-queue items are reinjected and
processed fails on the code for non-youtube items.  Line 502 re-initialises
`text_candidates` to `[]` after the retry loop (lines 483-491) filled it,
so the eligible retry item is neither attempted nor requeued: both output
lists are empty. -/
theorem C2_text_retry_items_discarded :
    envRetryWiped.loadedFailed = [sampleRetryText] ∧
    textRetryCandidates envRetryWiped = [sampleRetryText] ∧
    uniqueTextCandidates envRetryWiped = [] ∧
    uniqueYoutubeCandidates envRetryWiped = [] ∧
    (runMain envRetryWiped).articles = [] ∧
    (runMain envRetryWiped).failed_queue = [] := by
  decide

/-- C3 counterexample: a feed entry with a present, parseable publication
date (`2020-01-01`) is still emitted with the ingestion date (today,
`2026-10-12`), refuting the claim that `published_at` equals the source
date when available. -/
theorem C3_counterexample_source_date_ignored :
    datedEntry.published = some "2020-01-01" ∧
    (scrape_feed id [datedEntry] "Nature" "News" "2026-10-12").map (fun a => a.date)
      = ["2026-10-12"] ∧
    some "2026-10-12" ≠ datedEntry.published := by
  decide

/-- C3 (amended): every candidate emitted by `scrape_feed` or
`scrape_youtube_videos` carries the ingestion date (the `date_str` of the
run) as its date, unconditionally — the feed's own publication date is
ignored even when present. -/
theorem C3_published_at_always_ingestion_time
    (clean : String → String) (entries : List FeedEntry)
    (src cat today : String) (a : Article)
    (ha : a ∈ scrape_feed clean entries src cat today ∨
          a ∈ scrape_youtube_videos clean entries src cat today) :
    a.date = today := by
  rcases ha with h | h
  · exact (scrape_feed_mem h).1
  · exact (scrape_youtube_videos_mem h).1

/-- C3 witness: the amended theorem applied to the concrete dated entry. -/
theorem C3_published_at_always_ingestion_time_witness :
    (datedEmitted ∈ scrape_feed id [datedEntry] "Nature" "News" "2026-10-12" ∨
     datedEmitted ∈ scrape_youtube_videos id [datedEntry] "Nature" "News" "2026-10-12") ∧
    datedEmitted.date = "2026-10-12" :=
  ⟨Or.inl (by decide),
   C3_published_at_always_ingestion_time id [datedEntry] "Nature" "News" "2026-10-12"
     datedEmitted (Or.inl (by decide))⟩

/-- C4: batch correlation integrity.  For a successful, parsed batch call,
the processed list has one entry per submitted article; a submitted
article whose index has no result in `result_map` becomes its
`markMissing` form — which carries the sentinel marker and therefore lands
in the `new_failed_queue` component of the routing — and a submitted
article whose index has a result receives that result's translated title
and summary. -/
theorem C4_batch_correlation_integrity (batch : List Article)
    (results : List GeminiResult) (acc : List Article × List Article)
    (i : Nat) (hi : i < batch.length) :
    (get_gemini_batch_summary true (BatchOutcome.parsed results) batch).length
        = batch.length ∧
    (resultMapLookup results i = none →
      (get_gemini_batch_summary true (BatchOutcome.parsed results) batch)[i]?
          = some (markMissing (batch.get ⟨i, hi⟩)) ∧
      markMissing (batch.get ⟨i, hi⟩) ∈
        (routeBatch acc (get_gemini_batch_summary true (BatchOutcome.parsed results) batch)).2) ∧
    (∀ res, resultMapLookup results i = some res →
      (get_gemini_batch_summary true (BatchOutcome.parsed results) batch)[i]?
          = some (applyResult res (batch.get ⟨i, hi⟩)) ∧
      (applyResult res (batch.get ⟨i, hi⟩)).title = some res.title_kr ∧
      (applyResult res (batch.get ⟨i, hi⟩)).summary_kr = some res.summary_kr) := by
  have hb : batch[i]? = some batch[i] :=
    (List.getElem?_eq_some_getElem_iff batch i hi).mpr trivial
  refine ⟨batch_summary_length results batch, ?_, ?_⟩
  · intro hmiss
    have hp : (get_gemini_batch_summary true (BatchOutcome.parsed results) batch)[i]?
        = some (markMissing (batch.get ⟨i, hi⟩)) := by
      rw [batch_summary_getElem, hb]
      simp [hmiss, List.get_eq_getElem]
    exact ⟨hp, routeBatch_snd_mem _ acc _ (List.getElem?_mem hp) (isFailed_markMissing _)⟩
  · intro res hres
    refine ⟨?_, rfl, rfl⟩
    rw [batch_summary_getElem, hb]
    simp [hres, List.get_eq_getElem]

/-- C4 witness: five submitted articles, results echoed for ids 0-2 only;
the article at index 3 is missing from the response and ends in the failed
queue. -/
theorem C4_batch_correlation_integrity_witness :
    (3 < sampleBatch.length ∧ resultMapLookup sampleResults 3 = none) ∧
    markMissing (sampleBatch.get ⟨3, by decide⟩) ∈
      (routeBatch ([], [])
        (get_gemini_batch_summary true (BatchOutcome.parsed sampleResults) sampleBatch)).2 :=
  ⟨⟨by decide, by decide⟩,
   ((C4_batch_correlation_integrity sampleBatch sampleResults ([], []) 3
      (by decide)).2.1 (by decide)).2⟩

/-- C5 counterexample: a submitted article missing from the response is
routed to the failed queue in mutated form — `markMissing` sets its
`title` and `summary_kr` fields — so the queued item is not the original
unmodified candidate. -/
theorem C5_counterexample_failure_path_mutates :
    (routeBatch ([], [])
        (get_gemini_batch_summary true (BatchOutcome.parsed []) [sampleCandidate])).2
      = [markMissing sampleCandidate] ∧
    markMissing sampleCandidate ≠ sampleCandidate := by
  decide

/-- C5 (amended): on the batch missing-result failure path the queued item
preserves the candidate's url, source, category, date, description and
image fields but gains `title := title_en` and a sentinel `summary_kr`;
on the youtube failure path the original candidate is appended to the
failed queue unmodified. -/
theorem C5_failure_path_field_changes (batch : List Article)
    (results : List GeminiResult) (i : Nat) (hi : i < batch.length)
    (hmiss : resultMapLookup results i = none) :
    (∃ q, (get_gemini_batch_summary true (BatchOutcome.parsed results) batch)[i]?
        = some q ∧
      q.url = (batch.get ⟨i, hi⟩).url ∧
      q.source = (batch.get ⟨i, hi⟩).source ∧
      q.category = (batch.get ⟨i, hi⟩).category ∧
      q.date = (batch.get ⟨i, hi⟩).date ∧
      q.description_en = (batch.get ⟨i, hi⟩).description_en ∧
      q.image_url = (batch.get ⟨i, hi⟩).image_url ∧
      q.title_en = (batch.get ⟨i, hi⟩).title_en ∧
      q.title = some (batch.get ⟨i, hi⟩).title_en ∧
      q.summary_kr = some (failMarker ++ " 배치 처리 중 누락")) ∧
    (∀ (hk : Bool) (o : Nat → YtOutcome) (acc : List Article × List Article)
        (p : Nat × Article),
      containsMarker (get_gemini_summary_youtube hk (o p.1) p.2).2 = true →
      ytStep hk o acc p = (acc.1, acc.2 ++ [p.2])) := by
  constructor
  · refine ⟨markMissing (batch.get ⟨i, hi⟩), ?_, ?_⟩
    · have hb : batch[i]? = some batch[i] :=
        (List.getElem?_eq_some_getElem_iff batch i hi).mpr trivial
      rw [batch_summary_getElem, hb]
      simp [hmiss, List.get_eq_getElem]
    · simp [markMissing]
  · intro hk o acc p hp
    unfold ytStep
    rw [if_pos hp]

/-- C5 witness: the amended theorem at a singleton batch with an empty
response. -/
theorem C5_failure_path_field_changes_witness :
    (0 < ([sampleCandidate] : List Article).length ∧
      resultMapLookup [] 0 = none) ∧
    (∃ q, (get_gemini_batch_summary true (BatchOutcome.parsed []) [sampleCandidate])[0]?
        = some q ∧
      q.url = sampleCandidate.url ∧
      q.source = sampleCandidate.source ∧
      q.category = sampleCandidate.category ∧
      q.date = sampleCandidate.date ∧
      q.description_en = sampleCandidate.description_en ∧
      q.image_url = sampleCandidate.image_url ∧
      q.title_en = sampleCandidate.title_en ∧
      q.title = some sampleCandidate.title_en ∧
      q.summary_kr = some (failMarker ++ " 배치 처리 중 누락")) ∧
    (∀ (hk : Bool) (o : Nat → YtOutcome) (acc : List Article × List Article)
        (p : Nat × Article),
      containsMarker (get_gemini_summary_youtube hk (o p.1) p.2).2 = true →
      ytStep hk o acc p = (acc.1, acc.2 ++ [p.2])) :=
  ⟨⟨by decide, by decide⟩,
   C5_failure_path_field_changes [sampleCandidate] [] 0 (by decide) (by decide)⟩

/-- C6 counterexample: with a run dated 2026-10-12 loading a record dated
2026-10-04 (8 days earlier) and no new candidates, the record is still
present in the output — there is no age-based retention, refuting the
bounded-archive claim. -/
theorem C6_counterexample_old_record_retained :
    oldRecord.date = "2026-10-04" ∧
    envOldRecord.last_updated = "2026-10-12 08:00:00" ∧
    (runMain envOldRecord).articles = [oldRecord] := by
  decide

/-- C6 (amended): the code implements the unbounded-archive policy — every
loaded record with a non-empty url is retained in the output records
regardless of its age (the load loop at lines 428-433 applies no date
limit, and nothing later drops by age). -/
theorem C6_no_age_based_retention (env : RunEnv) (a : Article)
    (ha : a ∈ env.loadedArticles) (hurl : a.url ≠ "") :
    a ∈ (runMain env).articles := by
  apply mem_sortByDateDesc.mpr
  apply List.mem_append.mpr
  left
  apply List.mem_filter.mpr
  refine ⟨ha, ?_⟩
  simp [truthy, hurl]

/-- C6 witness: the 8-day-old record is retained. -/
theorem C6_no_age_based_retention_witness :
    (oldRecord ∈ envOldRecord.loadedArticles ∧ oldRecord.url ≠ "") ∧
    oldRecord ∈ (runMain envOldRecord).articles :=
  ⟨⟨by decide, by decide⟩,
   C6_no_age_based_retention envOldRecord oldRecord (by decide) (by decide)⟩

/-- C7: if no loaded record carries the sentinel failure marker in its
summary, then no record of the written snapshot does either — every
processed item whose summary contains `"[요약 실패]"` is routed to the
retry queue, not to the records. -/
theorem C7_no_failed_marker_in_snapshot (env : RunEnv)
    (h : ∀ a ∈ env.loadedArticles, isFailed a = false) :
    ∀ r ∈ (runMain env).articles, isFailed r = false := by
  intro r hr
  have hr' : r ∈ oldArticles env ++ (finalResult env).1 := mem_sortByDateDesc.mp hr
  rcases List.mem_append.mp hr' with h1 | h1
  · exact h r (List.mem_filter.mp h1).1
  · exact finalResult_fst_not_failed env r h1

/-- C7 witness: the invariant at the concrete old-record run. -/
theorem C7_no_failed_marker_in_snapshot_witness :
    (∀ a ∈ envOldRecord.loadedArticles, isFailed a = false) ∧
    (∀ r ∈ (runMain envOldRecord).articles, isFailed r = false) :=
  ⟨by decide, C7_no_failed_marker_in_snapshot envOldRecord (by decide)⟩

/-- C8 counterexample: a failing snapshot write is caught by the
`except Exception` handler (scraper.py lines 584-585) — the exception does
not escape the save step and the process still exits 0, refuting the claim
that persistence failure propagates to the exit code. -/
theorem C8_counterexample_write_failure_swallowed :
    processExitCode (Except.error "No space left on device") (Except.ok ()) = 0 ∧
    (saveSnapshotStep (Except.error "No space left on device")).2 = none := by
  decide

/-- C8 (amended): snapshot-write failure never propagates — whatever the
write outcomes, the save steps swallow every exception (logging the
failure message) and the process exit code is 0. -/
theorem C8_write_failure_never_propagates :
    ∀ (w lw : Except String Unit),
      processExitCode w lw = 0 ∧
      (saveSnapshotStep w).2 = none ∧
      (∀ e, saveSnapshotStep (Except.error e) = ("파일 저장 실패: " ++ e, none)) := by
  intro w lw
  refine ⟨?_, ?_, fun e => rfl⟩ <;> cases w <;> cases lw <;> rfl

/-- C9: `split_into_n_chunks` on a non-empty list and positive target
count: the chunks concatenate to the input in order, no chunk is empty,
fewer elements than chunks degrade to singletons, and otherwise the chunk
sizes are `N / K + 1` for the first `N % K` chunks and `N / K` for the
rest (i.e. every size is `⌈N/K⌉` or `⌊N/K⌋`). -/
theorem C9_split_into_n_chunks_balanced {α : Type _} (lst : List α) (n : Nat)
    (hne : lst ≠ []) (hn : 1 ≤ n) :
    (split_into_n_chunks lst n).flatten = lst ∧
    (∀ c ∈ split_into_n_chunks lst n, c ≠ []) ∧
    (lst.length < n → split_into_n_chunks lst n = lst.map (fun x => [x])) ∧
    (n ≤ lst.length →
      (split_into_n_chunks lst n).map List.length
        = (List.range n).map (fun i =>
            if i < lst.length % n then lst.length / n + 1 else lst.length / n)) := by
  have hempty : lst.isEmpty = false := by
    cases lst with
    | nil => cases hne rfl
    | cons a t => rfl
  by_cases hlt : lst.length < n
  · have hres : split_into_n_chunks lst n = lst.map (fun x => [x]) := by
      simp [split_into_n_chunks, hempty, hlt]
    refine ⟨?_, ?_, fun _ => hres, fun hge => absurd hge (by omega)⟩
    · rw [hres]; exact flatten_map_singleton lst
    · rw [hres]; intro c hc
      rcases List.mem_map.mp hc with ⟨x, _, rfl⟩
      simp
  · have hge : n ≤ lst.length := Nat.le_of_not_lt hlt
    set k := lst.length / n with hk
    set m := lst.length % n with hm
    have hdm : n * k + m = lst.length := Nat.div_add_mod lst.length n
    have hmlt : m < n := Nat.mod_lt _ (by omega)
    have hk1 : 1 ≤ k := (Nat.one_le_div_iff (by omega)).mpr hge
    have hres : split_into_n_chunks lst n
        = (List.range n).map (fun i =>
            (lst.drop (i * k + min i m)).take
              ((i + 1) * k + min (i + 1) m - (i * k + min i m))) := by
      simp [split_into_n_chunks, hempty, hlt, hk, hm]
    have hmono : ∀ i, i * k + min i m ≤ (i + 1) * k + min (i + 1) m := by
      intro i
      have h1 : i * k ≤ (i + 1) * k := Nat.mul_le_mul_right k (Nat.le_succ i)
      have h2 : min i m ≤ min (i + 1) m := min_le_min (Nat.le_succ i) le_rfl
      omega
    have hbound : ∀ j, j ≤ n → j * k + min j m ≤ lst.length := by
      intro j hj
      have h1 : j * k ≤ n * k := Nat.mul_le_mul_right k hj
      have h2 : min j m ≤ m := min_le_right j m
      omega
    have hlen : ∀ i, i < n →
        ((lst.drop (i * k + min i m)).take
          ((i + 1) * k + min (i + 1) m - (i * k + min i m))).length
          = if i < m then k + 1 else k := by
      intro i hi
      rw [List.length_take, List.length_drop]
      have hik : (i + 1) * k = i * k + k := Nat.succ_mul i k
      have h1 : (i + 1) * k + min (i + 1) m ≤ lst.length := hbound (i + 1) hi
      by_cases him : i < m
      · rw [if_pos him]; omega
      · rw [if_neg him]; omega
    refine ⟨?_, ?_, fun h => absurd h (by omega), fun _ => ?_⟩
    · rw [hres, flatten_boundary_chunks lst (fun i => i * k + min i m) (by simp) hmono n]
      have han : n * k + min n m = lst.length := by
        have : min n m = m := min_eq_right (by omega)
        omega
      rw [han, List.take_length]
    · rw [hres]
      intro c hc
      rcases List.mem_map.mp hc with ⟨i, hi, rfl⟩
      have hi' : i < n := List.mem_range.mp hi
      have hl := hlen i hi'
      intro hnil
      rw [hnil] at hl
      simp only [List.length_nil] at hl
      by_cases him : i < m
      · rw [if_pos him] at hl; omega
      · rw [if_neg him] at hl; omega
    · rw [hres, List.map_map]
      apply List.map_congr_left
      intro i hi
      exact hlen i (List.mem_range.mp hi)

/-- C9 witness: seven elements into three chunks of sizes 3, 2, 2. -/
theorem C9_split_into_n_chunks_balanced_witness :
    (([1, 2, 3, 4, 5, 6, 7] : List Nat) ≠ [] ∧ 1 ≤ 3) ∧
    ((split_into_n_chunks ([1, 2, 3, 4, 5, 6, 7] : List Nat) 3).flatten
        = [1, 2, 3, 4, 5, 6, 7] ∧
      (∀ c ∈ split_into_n_chunks ([1, 2, 3, 4, 5, 6, 7] : List Nat) 3, c ≠ []) ∧
      (([1, 2, 3, 4, 5, 6, 7] : List Nat).length < 3 →
        split_into_n_chunks ([1, 2, 3, 4, 5, 6, 7] : List Nat) 3
          = ([1, 2, 3, 4, 5, 6, 7] : List Nat).map (fun x => [x])) ∧
      (3 ≤ ([1, 2, 3, 4, 5, 6, 7] : List Nat).length →
        (split_into_n_chunks ([1, 2, 3, 4, 5, 6, 7] : List Nat) 3).map List.length
          = (List.range 3).map (fun i =>
              if i < ([1, 2, 3, 4, 5, 6, 7] : List Nat).length % 3
              then ([1, 2, 3, 4, 5, 6, 7] : List Nat).length / 3 + 1
              else ([1, 2, 3, 4, 5, 6, 7] : List Nat).length / 3))) :=
  ⟨⟨by decide, by decide⟩,
   C9_split_into_n_chunks_balanced ([1, 2, 3, 4, 5, 6, 7] : List Nat) 3
     (by decide) (by decide)⟩

/-- C10: every candidate emitted by `scrape_feed` or
`scrape_youtube_videos` has a non-empty url and a non-empty title — the
scrapers skip entries whose link or title is absent or empty. -/
theorem C10_candidates_have_url_and_title
    (clean : String → String) (entries : List FeedEntry)
    (src cat today : String) (a : Article)
    (ha : a ∈ scrape_feed clean entries src cat today ∨
          a ∈ scrape_youtube_videos clean entries src cat today) :
    a.url ≠ "" ∧ a.title_en ≠ "" := by
  rcases ha with h | h
  · exact (scrape_feed_mem h).2
  · exact (scrape_youtube_videos_mem h).2

/-- C10 witness: the concrete dated entry's emission has a non-empty url
and title. -/
theorem C10_candidates_have_url_and_title_witness :
    (datedEmitted ∈ scrape_feed id [datedEntry] "Nature" "News" "2026-10-12" ∨
     datedEmitted ∈ scrape_youtube_videos id [datedEntry] "Nature" "News" "2026-10-12") ∧
    (datedEmitted.url ≠ "" ∧ datedEmitted.title_en ≠ "") :=
  ⟨Or.inl (by decide),
   C10_candidates_have_url_and_title id [datedEntry] "Nature" "News" "2026-10-12"
     datedEmitted (Or.inl (by decide))⟩

end Scraper
